import Mathlib

/-!
Shallow embedding of `dist/x/services.js` (the `TwitterService` facade of
x-v2-server) and proofs about it.

The facade is a singleton class holding one lazily-constructed client
handle.  Every public method wraps one-or-two calls on the underlying
`twitter-api-v2` client in a `try/catch` that returns the caught error as
the resolved value.  We model:

  * JS values (`JsVal`), JS property access (throwing `TypeError` on
    `undefined`/`null` receivers), and `JSON.stringify`;
  * the environment (`Env`) with the four credential variables and JS
    falsiness on them (`undefined` or the empty string);
  * the underlying client as an oracle `Remote : Req → Except JsVal JsVal`,
    where a `Req` records which client method is invoked with which
    arguments; every issued request is appended to a trace;
  * each facade method as a function
    `Option TwitterApi → List Req → Except JsVal JsVal × Option TwitterApi × List Req`
    (result-or-rejection, client handle afterwards, trace afterwards).
-/

/-- A JS value, as far as this code can observe one: primitives, arrays,
plain objects, and `Error` instances (whose `message` is a non-enumerable
own property, hence invisible to `JSON.stringify`). -/
inductive JsVal where
  | undef
  | null
  | bool (b : Bool)
  | num (n : Int)
  | str (s : String)
  | arr (elems : List JsVal)
  | obj (fields : List (String × JsVal))
  | errorObj (message : String)

/-- Property lookup in an object literal's field list. -/
def lookupField : List (String × JsVal) → String → JsVal
  | [], _ => JsVal.undef
  | (k, v) :: rest, key => if k = key then v else lookupField rest key

/-- JS property access `v.key`: throws a `TypeError` when the receiver is
`undefined` or `null`; yields `undefined` for a missing property and for
primitive receivers (none of the accessed names exist on JS primitives). -/
def getField (v : JsVal) (key : String) : Except JsVal JsVal :=
  match v with
  | JsVal.undef =>
      Except.error (JsVal.errorObj
        ("Cannot read properties of undefined (reading " ++ key ++ ")"))
  | JsVal.null =>
      Except.error (JsVal.errorObj
        ("Cannot read properties of null (reading " ++ key ++ ")"))
  | JsVal.obj fields => Except.ok (lookupField fields key)
  | _ => Except.ok JsVal.undef

/-- Lowercase hex digit, as `JSON.stringify` emits in `\u00XX` escapes. -/
def hexDigit (n : Nat) : Char :=
  (List.getD "0123456789abcdef".toList n '0')

/-- Escaping of one character inside a JSON string literal, following
`JSON.stringify`. -/
def escapeChar (c : Char) : String :=
  if c = '"' then "\\\""
  else if c = '\\' then "\\\\"
  else if c = '\n' then "\\n"
  else if c = '\r' then "\\r"
  else if c = '\t' then "\\t"
  else if c = '\x08' then "\\b"
  else if c = '\x0c' then "\\f"
  else if c.toNat < 32 then
    String.mk ['\\', 'u', '0', '0', hexDigit (c.toNat / 16), hexDigit (c.toNat % 16)]
  else String.mk [c]

/-- A JSON string literal for `s`. -/
def jsonQuote (s : String) : String :=
  "\"" ++ String.join (s.toList.map escapeChar) ++ "\""

mutual
/-- `JSON.stringify` on a `JsVal`; `none` models the JS result `undefined`
(top-level `undefined` is not serialized).  `Error` instances have no
enumerable own properties, so they serialize as the empty object. -/
def jsonStringify : JsVal → Option String
  | JsVal.undef => none
  | JsVal.null => some "null"
  | JsVal.bool b => some (if b then "true" else "false")
  | JsVal.num n => some (toString n)
  | JsVal.str s => some (jsonQuote s)
  | JsVal.arr xs => some ("[" ++ String.intercalate "," (jsonArrParts xs) ++ "]")
  | JsVal.obj fs => some ("\x7b" ++ String.intercalate "," (jsonObjParts fs) ++ "\x7d")
  | JsVal.errorObj _ => some "\x7b\x7d"

/-- Array elements: an unserializable element becomes `null`. -/
def jsonArrParts : List JsVal → List String
  | [] => []
  | x :: xs => (Option.getD (jsonStringify x) "null") :: jsonArrParts xs

/-- Object properties: a property with unserializable value is dropped. -/
def jsonObjParts : List (String × JsVal) → List String
  | [] => []
  | (k, v) :: fs =>
      match jsonStringify v with
      | some sv => (jsonQuote k ++ ":" ++ sv) :: jsonObjParts fs
      | none => jsonObjParts fs
end

/-- The JS value of `JSON.stringify(v)`: a string, or `undefined`. -/
def jsonStringifyVal (v : JsVal) : JsVal :=
  match jsonStringify v with
  | some s => JsVal.str s
  | none => JsVal.undef

/-- `pat` occurs at the start of `l`. -/
def leadsWith : List Char → List Char → Bool
  | _, [] => true
  | [], _ :: _ => false
  | c :: cs, p :: ps => c = p && leadsWith cs ps

/-- JS `String.prototype.includes`: `pat` occurs contiguously in `l`. -/
def charsInclude : List Char → List Char → Bool
  | l, p =>
    leadsWith l p ||
      (match l with
       | [] => false
       | _ :: t => charsInclude t p)

/-- `s.includes(pat)` on strings. -/
def strIncludes (s pat : String) : Bool :=
  charsInclude s.toList pat.toList

/-- `pat.toList` occurs contiguously inside `l` (specification-side notion
of substring occurrence, to compare `strIncludes` against). -/
def OccursIn (pat l : List Char) : Prop :=
  ∃ l₁ l₂, l = l₁ ++ pat ++ l₂

/-- Specification-side "the string starts with `pat`". -/
def strStartsWith (s pat : String) : Prop :=
  ∃ l₂, s.toList = pat.toList ++ l₂

/-- The regex character class `\w` = `[A-Za-z0-9_]`. -/
def isWordChar (c : Char) : Bool :=
  ('a' ≤ c && c ≤ 'z') || ('A' ≤ c && c ≤ 'Z') || ('0' ≤ c && c ≤ '9') || c = '_'

/-- Drop `pat` from the front of `l`, or fail. -/
def dropLeading : List Char → List Char → Option (List Char)
  | [], l => some l
  | _ :: _, [] => none
  | p :: ps, c :: cs => if c = p then dropLeading ps cs else none

/-- Maximal run of `\w` characters at the front: its length and the rest. -/
def takeWord : List Char → Nat × List Char
  | [] => (0, [])
  | c :: cs =>
    if isWordChar c then
      let r := takeWord cs
      (r.1 + 1, r.2)
    else (0, c :: cs)

/-- `imageBase64.replace(/^data:image\/\w+;base64,/, '')`: strip the data-URI
header when the regex matches at the start, otherwise return the string
unchanged. -/
def stripDataUriHeader (s : String) : String :=
  match dropLeading "data:image/".toList s.toList with
  | none => s
  | some rest =>
    let w := takeWord rest
    if w.1 = 0 then s
    else
      match dropLeading ";base64,".toList w.2 with
      | none => s
      | some payload => String.mk payload

/-- `EUploadMimeType` values used by `postTweet`. -/
inductive EUploadMimeType where
  | Jpeg
  | Png
  | Gif
  | Webp
deriving DecidableEq, Repr

/-- The MIME-type inference of `postTweet`: `let mimeType = Jpeg` then an
`if / else if` chain of `imageBase64.includes(...)` tests. -/
def inferMimeType (imageBase64 : String) : EUploadMimeType :=
  if strIncludes imageBase64 "data:image/png" then EUploadMimeType.Png
  else if strIncludes imageBase64 "data:image/gif" then EUploadMimeType.Gif
  else if strIncludes imageBase64 "data:image/webp" then EUploadMimeType.Webp
  else EUploadMimeType.Jpeg

/-- The constructed `TwitterApi` client: the credential quadruple passed to
`new TwitterApi({...})`. -/
structure TwitterApi where
  appKey : String
  appSecret : String
  accessToken : String
  accessSecret : String
deriving DecidableEq, Repr

/-- The four credential environment variables; `none` models an unset
variable. -/
structure Env where
  TWITTER_API_KEY : Option String
  TWITTER_API_KEY_SECRET : Option String
  TWITTER_ACCESS_TOKEN : Option String
  TWITTER_ACCESS_TOKEN_SECRET : Option String
deriving DecidableEq, Repr

/-- JS falsiness of `process.env.X`: unset, or set to the empty string. -/
def envFalsy : Option String → Bool
  | none => true
  | some s => s.isEmpty

/-- The credential guard of `getClient`:
`!key || !keySecret || !token || !tokenSecret`. -/
def credsMissing (env : Env) : Bool :=
  envFalsy env.TWITTER_API_KEY || envFalsy env.TWITTER_API_KEY_SECRET ||
    envFalsy env.TWITTER_ACCESS_TOKEN || envFalsy env.TWITTER_ACCESS_TOKEN_SECRET

/-- The error thrown by `getClient` when a credential is missing. -/
def configError : JsVal :=
  JsVal.errorObj "Twitter credentials are not properly configured in environment variables"

/-- The client object built from the environment on first use. -/
def mkTwitterApi (env : Env) : TwitterApi where
  appKey := Option.getD env.TWITTER_API_KEY ""
  appSecret := Option.getD env.TWITTER_API_KEY_SECRET ""
  accessToken := Option.getD env.TWITTER_ACCESS_TOKEN ""
  accessSecret := Option.getD env.TWITTER_ACCESS_TOKEN_SECRET ""

/-- `getClient()`: return the cached client, or check the credentials and
construct it (assigning `this.client`); throws `configError` when a
credential is falsy.  Yields the returned client and the handle state. -/
def getClient (env : Env) (client : Option TwitterApi) :
    Except JsVal (TwitterApi × Option TwitterApi) :=
  match client with
  | some cl => Except.ok (cl, some cl)
  | none =>
    if credsMissing env then Except.error configError
    else
      let cl := mkTwitterApi env
      Except.ok (cl, some cl)

/-- The `exclude` items of `userTimeline` (TS type `'retweets' | 'replies'`). -/
inductive Excl where
  | retweets
  | replies
deriving DecidableEq, Repr

/-- One invocation of a method on the underlying `twitter-api-v2` client,
with the arguments the facade passes.  Arguments the facade takes from a
previous response (`me.data.id`, the media id) are `JsVal`; the rest carry
the facade's own argument types. -/
inductive Req where
  | userTimeline (userId : String) (exclude : List Excl) (maxResults : Int)
      (paginationToken : Option String)
  | singleTweet (tweetId : String)
  | userMentionTimeline (userId : String) (maxResults : Int)
      (paginationToken : Option String)
  | quote (text : String) (tweetId : String)
  | reply (text : String) (tweetId : String)
  | uploadMedia (bufferBase64 : String) (mediaType : EUploadMimeType)
      (mediaCategory : String)
  | tweetWithMedia (text : String) (mediaIds : List JsVal)
  | tweetText (text : String)
  | me
  | like (loggedUserId : JsVal) (tweetId : String)
  | follow (loggedUserId : JsVal) (targetUserId : String)
  | unfollow (loggedUserId : JsVal) (targetUserId : String)
  | userByUsername (username : String)
  | search (query : String) (maxResults : Int)
  | trendsAvailable
  | createList (name : String) (description : Option String) (isPrivate : Bool)
  | addListMember (listId : String) (userId : String)
  | removeListMember (listId : String) (userId : String)
  | listsOwned (loggedUserId : JsVal)

/-- The underlying client as an oracle: what each call resolves with
(`Except.ok`) or throws (`Except.error`). -/
def Remote : Type := Req → Except JsVal JsVal

/-- The body of a facade method, between `getClient` and the `catch`:
a computation that issues requests (appended to the trace) and may throw a
JS value.  The trace survives a throw, since thrown-past calls were still
issued. -/
def TraceM (α : Type) : Type := List Req → Except JsVal α × List Req

instance : Monad TraceM where
  pure a := fun t => (Except.ok a, t)
  bind x f := fun t =>
    match x t with
    | (Except.ok a, t') => f a t'
    | (Except.error e, t') => (Except.error e, t')

/-- `await client.<method>(...)`: issue the request and resolve or throw
what the oracle says. -/
def call (remote : Remote) (r : Req) : TraceM JsVal :=
  fun t => (remote r, t ++ [r])

/-- Property access inside a body (may throw a `TypeError`). -/
def getFieldM (v : JsVal) (key : String) : TraceM JsVal :=
  fun t => (getField v key, t)

/-- A facade method's behaviour: from a client-handle state and a trace, the
settled outcome (`Except.error` = promise rejected), the handle state after,
and the trace after. -/
def Op : Type :=
  Option TwitterApi → List Req → Except JsVal JsVal × Option TwitterApi × List Req

/-- The shared shape of every facade method:
`try { const client = this.getClient(); <body> } catch (error) { return error; }`.
Both a `getClient` throw and a body throw are caught and returned as the
resolved value. -/
def withClient (env : Env) (body : TwitterApi → TraceM JsVal) : Op :=
  fun client t =>
    match getClient env client with
    | Except.error e => (Except.ok e, client, t)
    | Except.ok (cl, client') =>
      match body cl t with
      | (Except.ok v, t') => (Except.ok v, client', t')
      | (Except.error e, t') => (Except.ok e, client', t')

/-- JS `x || d` on an optional numeric argument: the default applies to any
falsy value, so to `undefined` and to `0`. -/
def orIfFalsy : Option Int → Int → Int
  | none, d => d
  | some n, d => if n = 0 then d else n

/-- JS truthiness of an optional string argument (`if (imageBase64)`):
false for `undefined` and for the empty string. -/
def strTruthy : Option String → Bool
  | none => false
  | some s => !s.isEmpty

/-- `getUserTweets(userId, paginationToken, exclude, maxResults)`.  The
`maxResults` parameter is declared but never used: the request always
carries `max_results: 50`.  On success the payload is re-serialized:
`JSON.stringify({ result: tweets.data, message: "Tweets fetched successfully" })`. -/
def getUserTweets (env : Env) (remote : Remote) (userId : String)
    (paginationToken : Option String) (exclude : Option (List Excl))
    (maxResults : Option Int) : Op :=
  withClient env fun _client => do
    let tweets ← call remote (Req.userTimeline userId
      (Option.getD exclude [Excl.retweets, Excl.replies]) 50 paginationToken)
    let d ← getFieldM tweets "data"
    pure (jsonStringifyVal (JsVal.obj
      [("result", d), ("message", JsVal.str "Tweets fetched successfully")]))

/-- `getTweet(tweetId)`: one `singleTweet` call, returns `result.data`. -/
def getTweet (env : Env) (remote : Remote) (tweetId : String) : Op :=
  withClient env fun _client => do
    let result ← call remote (Req.singleTweet tweetId)
    getFieldM result "data"

/-- `getUserMentionTimeline(userId, paginationToken, maxResults)`:
`max_results: maxResults || 10`, returns `mentions.data`. -/
def getUserMentionTimeline (env : Env) (remote : Remote) (userId : String)
    (paginationToken : Option String) (maxResults : Option Int) : Op :=
  withClient env fun _client => do
    let mentions ← call remote (Req.userMentionTimeline userId
      (orIfFalsy maxResults 10) paginationToken)
    getFieldM mentions "data"

/-- `quoteAndComment(tweetId, replyText)`: `client.v2.quote(replyText, tweetId)`,
returns `quote.data`. -/
def quoteAndComment (env : Env) (remote : Remote) (tweetId : String)
    (replyText : String) : Op :=
  withClient env fun _client => do
    let quote ← call remote (Req.quote replyText tweetId)
    getFieldM quote "data"

/-- `replyToTweet(tweetId, replyText)`: `client.v2.reply(replyText, tweetId)`,
returns `reply.data`. -/
def replyToTweet (env : Env) (remote : Remote) (tweetId : String)
    (replyText : String) : Op :=
  withClient env fun _client => do
    let reply ← call remote (Req.reply replyText tweetId)
    getFieldM reply "data"

/-- `postTweet(text, imageBase64)`: with a truthy image, strip the data-URI
header, infer the MIME type by substring tests, upload the media, then
tweet with the media id; otherwise tweet the text alone.  Returns
`tweet.data`. -/
def postTweet (env : Env) (remote : Remote) (text : String)
    (imageBase64 : Option String) : Op :=
  withClient env fun _client =>
    if strTruthy imageBase64 then
      let img := Option.getD imageBase64 ""
      do
        let buffer := stripDataUriHeader img
        let mimeType := inferMimeType img
        let mediaId ← call remote (Req.uploadMedia buffer mimeType "tweet_image")
        let tweet ← call remote (Req.tweetWithMedia text [mediaId])
        getFieldM tweet "data"
    else do
      let tweet ← call remote (Req.tweetText text)
      getFieldM tweet "data"

/-- `likeTweet(tweetId)`: `me()` then `like(me.data.id, tweetId)`; returns
`{ liked: result.data.liked }`. -/
def likeTweet (env : Env) (remote : Remote) (tweetId : String) : Op :=
  withClient env fun _client => do
    let me ← call remote Req.me
    let meData ← getFieldM me "data"
    let meId ← getFieldM meData "id"
    let result ← call remote (Req.like meId tweetId)
    let rData ← getFieldM result "data"
    let liked ← getFieldM rData "liked"
    pure (JsVal.obj [("liked", liked)])

/-- `followUser(targetUserId)`: `me()` then `follow(me.data.id, targetUserId)`;
returns `result.data`. -/
def followUser (env : Env) (remote : Remote) (targetUserId : String) : Op :=
  withClient env fun _client => do
    let me ← call remote Req.me
    let meData ← getFieldM me "data"
    let meId ← getFieldM meData "id"
    let result ← call remote (Req.follow meId targetUserId)
    getFieldM result "data"

/-- `unfollowUser(targetUserId)`: `me()` then `unfollow(me.data.id, targetUserId)`;
returns `result.data`. -/
def unfollowUser (env : Env) (remote : Remote) (targetUserId : String) : Op :=
  withClient env fun _client => do
    let me ← call remote Req.me
    let meData ← getFieldM me "data"
    let meId ← getFieldM meData "id"
    let result ← call remote (Req.unfollow meId targetUserId)
    getFieldM result "data"

/-- `getUserByUsername(username)`: one call, returns `result.data`. -/
def getUserByUsername (env : Env) (remote : Remote) (username : String) : Op :=
  withClient env fun _client => do
    let result ← call remote (Req.userByUsername username)
    getFieldM result "data"

/-- `searchTweets(query, maxResults = 10)`: the default parameter applies to
`undefined` only; returns `result.data.data`. -/
def searchTweets (env : Env) (remote : Remote) (query : String)
    (maxResults : Option Int) : Op :=
  withClient env fun _client => do
    let result ← call remote (Req.search query (Option.getD maxResults 10))
    let rData ← getFieldM result "data"
    getFieldM rData "data"

/-- `getTrendingTopics(woeid = 1)`: the body never reads `woeid`; it always
calls `client.v1.trendsAvailable()` and returns the result unchanged. -/
def getTrendingTopics (env : Env) (remote : Remote) (woeid : Option Int) : Op :=
  withClient env fun _client => do
    let result ← call remote Req.trendsAvailable
    pure result

/-- `createList(name, description, isPrivate = false)`: one call, returns
`result.data`. -/
def createList (env : Env) (remote : Remote) (name : String)
    (description : Option String) (isPrivate : Option Bool) : Op :=
  withClient env fun _client => do
    let result ← call remote (Req.createList name description
      (Option.getD isPrivate false))
    getFieldM result "data"

/-- `addListMember(listId, userId)`: one call, returns `result.data`. -/
def addListMember (env : Env) (remote : Remote) (listId : String)
    (userId : String) : Op :=
  withClient env fun _client => do
    let result ← call remote (Req.addListMember listId userId)
    getFieldM result "data"

/-- `removeListMember(listId, userId)`: one call, returns `result.data`. -/
def removeListMember (env : Env) (remote : Remote) (listId : String)
    (userId : String) : Op :=
  withClient env fun _client => do
    let result ← call remote (Req.removeListMember listId userId)
    getFieldM result "data"

/-- `getOwnedLists()`: `me()` then `listsOwned(me.data.id)`; returns
`result.data.data`. -/
def getOwnedLists (env : Env) (remote : Remote) : Op :=
  withClient env fun _client => do
    let me ← call remote Req.me
    let meData ← getFieldM me "data"
    let meId ← getFieldM meData "id"
    let result ← call remote (Req.listsOwned meId)
    let rData ← getFieldM result "data"
    getFieldM rData "data"

/-- One invocation of a facade method, with its arguments. -/
inductive OpCall where
  | getUserTweets (userId : String) (paginationToken : Option String)
      (exclude : Option (List Excl)) (maxResults : Option Int)
  | getTweet (tweetId : String)
  | getUserMentionTimeline (userId : String) (paginationToken : Option String)
      (maxResults : Option Int)
  | quoteAndComment (tweetId : String) (replyText : String)
  | replyToTweet (tweetId : String) (replyText : String)
  | postTweet (text : String) (imageBase64 : Option String)
  | likeTweet (tweetId : String)
  | followUser (targetUserId : String)
  | unfollowUser (targetUserId : String)
  | getUserByUsername (username : String)
  | searchTweets (query : String) (maxResults : Option Int)
  | getTrendingTopics (woeid : Option Int)
  | createList (name : String) (description : Option String)
      (isPrivate : Option Bool)
  | addListMember (listId : String) (userId : String)
  | removeListMember (listId : String) (userId : String)
  | getOwnedLists

/-- Dispatch an `OpCall` to the corresponding facade method. -/
def runOp (env : Env) (remote : Remote) : OpCall → Op
  | OpCall.getUserTweets u p e m => getUserTweets env remote u p e m
  | OpCall.getTweet i => getTweet env remote i
  | OpCall.getUserMentionTimeline u p m => getUserMentionTimeline env remote u p m
  | OpCall.quoteAndComment i r => quoteAndComment env remote i r
  | OpCall.replyToTweet i r => replyToTweet env remote i r
  | OpCall.postTweet t img => postTweet env remote t img
  | OpCall.likeTweet i => likeTweet env remote i
  | OpCall.followUser u => followUser env remote u
  | OpCall.unfollowUser u => unfollowUser env remote u
  | OpCall.getUserByUsername u => getUserByUsername env remote u
  | OpCall.searchTweets q m => searchTweets env remote q m
  | OpCall.getTrendingTopics w => getTrendingTopics env remote w
  | OpCall.createList n d p => createList env remote n d p
  | OpCall.addListMember l u => addListMember env remote l u
  | OpCall.removeListMember l u => removeListMember env remote l u
  | OpCall.getOwnedLists => getOwnedLists env remote

/-- Run a sequence of facade calls, threading the client handle and the
trace (results are delivered to the respective callers and dropped here). -/
def runOps (env : Env) (remote : Remote) :
    List OpCall → Option TwitterApi × List Req → Option TwitterApi × List Req
  | [], s => s
  | op :: ops, s =>
    let r := runOp env remote op s.1 s.2
    runOps env remote ops (r.2.1, r.2.2)

/-- The `TwitterService` object: its only instance field is `client`
(the private constructor sets `this.client = null`). -/
structure TwitterService where
  client : Option TwitterApi
deriving DecidableEq, Repr

/-- `TwitterService.getInstance()` acting on the static `instance` slot:
on first use construct the service (whose constructor nulls `client`) and
store it; afterwards return the stored instance unchanged. -/
def getInstance :
    Option TwitterService → TwitterService × Option TwitterService
  | some inst => (inst, some inst)
  | none =>
    let s : TwitterService := { client := none }
    (s, some s)

/-! ### Unfolding and invariance lemmas -/

theorem traceM_bind {α β : Type} (x : TraceM α) (f : α → TraceM β) (t : List Req) :
    (x >>= f) t =
      match x t with
      | (Except.ok a, t') => f a t'
      | (Except.error e, t') => (Except.error e, t') := rfl

theorem traceM_pure {α : Type} (a : α) (t : List Req) :
    (pure a : TraceM α) t = (Except.ok a, t) := rfl

theorem call_snd (remote : Remote) (r : Req) (t : List Req) :
    (call remote r t).2 = t ++ [r] := rfl

theorem getFieldM_snd (v : JsVal) (k : String) (t : List Req) :
    (getFieldM v k t).2 = t := rfl

/-- A bind whose continuation never touches the trace leaves the trace of
its first action. -/
theorem traceM_bind_snd {α β : Type} (x : TraceM α) (f : α → TraceM β)
    (hf : ∀ a t', ((f a) t').2 = t') (t : List Req) :
    ((x >>= f) t).2 = (x t).2 := by
  rw [traceM_bind]
  rcases hx : x t with ⟨r, t'⟩
  cases r <;> simp [hf]

/-- The client handle after a facade method only depends on `getClient`,
never on the body. -/
theorem withClient_client (env : Env) (body : TwitterApi → TraceM JsVal)
    (c : Option TwitterApi) (t : List Req) :
    ((withClient env body) c t).2.1 =
      match getClient env c with
      | Except.ok p => p.2
      | Except.error _ => c := by
  unfold withClient
  rcases hg : getClient env c with e | ⟨cl, c'⟩
  · simp
  · rcases hb : body cl t with ⟨r, t'⟩
    cases r <;> simp [hb]

/-- With the client already constructed, the trace of a facade method is the
trace of its body. -/
theorem withClient_trace (env : Env) (body : TwitterApi → TraceM JsVal)
    (cl : TwitterApi) (t : List Req) :
    ((withClient env body) (some cl) t).2.2 = ((body cl) t).2 := by
  unfold withClient getClient
  rcases hb : body cl t with ⟨r, t'⟩
  cases r <;> simp [hb]

/-- With the client already constructed, a facade method resolves with the
body's value, or with the body's thrown value (caught). -/
theorem withClient_result (env : Env) (body : TwitterApi → TraceM JsVal)
    (cl : TwitterApi) (t : List Req) :
    ((withClient env body) (some cl) t).1 =
      match ((body cl) t).1 with
      | Except.ok v => Except.ok v
      | Except.error e => Except.ok e := by
  unfold withClient getClient
  rcases hb : body cl t with ⟨r, t'⟩
  cases r <;> simp [hb]

/-- With a credential missing and no client yet, every facade method
resolves with `configError`, changes nothing, and issues no request. -/
theorem withClient_noCreds (env : Env) (body : TwitterApi → TraceM JsVal)
    (h : credsMissing env = true) (t : List Req) :
    (withClient env body) none t = (Except.ok configError, none, t) := by
  unfold withClient getClient
  simp [h]

/-! ### Concrete fixtures -/

/-- An environment with all four credentials present. -/
def goodEnv : Env where
  TWITTER_API_KEY := some "k"
  TWITTER_API_KEY_SECRET := some "ks"
  TWITTER_ACCESS_TOKEN := some "at"
  TWITTER_ACCESS_TOKEN_SECRET := some "ats"

/-- An environment with no credential set. -/
def badEnv : Env where
  TWITTER_API_KEY := none
  TWITTER_API_KEY_SECRET := none
  TWITTER_ACCESS_TOKEN := none
  TWITTER_ACCESS_TOKEN_SECRET := none

/-- The client `goodEnv` constructs. -/
def apiClient : TwitterApi := mkTwitterApi goodEnv

/-- A response rich enough for every field path the facade reads. -/
def richResp : JsVal :=
  JsVal.obj [("data", JsVal.obj
    [("id", JsVal.str "self"), ("liked", JsVal.bool true),
     ("data", JsVal.arr [])])]

/-- A remote on which every call succeeds with `richResp`. -/
def remoteRich : Remote := fun _ => Except.ok richResp

/-- A remote on which every call resolves with `null`. -/
def remoteNull : Remote := fun _ => Except.ok JsVal.null

/-- A remote on which every call throws the given value. -/
def remoteThrow (e : JsVal) : Remote := fun _ => Except.error e

/-- Error propagation through a bind: if the first action throws, the
sequence throws the same value. -/
theorem traceM_bind_error {α β : Type} (x : TraceM α) (f : α → TraceM β)
    (t : List Req) (e : JsVal) (hx : (x t).1 = Except.error e) :
    ((x >>= f) t).1 = Except.error e := by
  rw [traceM_bind]
  rcases hxx : x t with ⟨r, t'⟩
  rw [hxx] at hx
  cases r
  · simp_all
  · simp at hx

/-- Claim C1, as stated, is false: with every credential missing and a
fresh service, `getTweet` does not reject; it resolves with the very
configuration error, which the per-operation `try/catch` caught (and it
issues no remote request). -/
theorem configError_resolved_not_rejected :
    ((getTweet badEnv remoteNull "1") none []).1 ≠ Except.error configError ∧
    (getTweet badEnv remoteNull "1") none [] = (Except.ok configError, none, []) := by
  refine ⟨fun h => ?_, rfl⟩
  have h' : (Except.ok configError : Except JsVal JsVal) = Except.error configError := h
  exact Except.noConfusion h'

/-- Claim C1 (amended): with any credential absent or empty and the client
not yet constructed, every facade operation resolves — without issuing any
remote request and without constructing a client — with the configuration
error as its result value: `getClient`'s throw happens inside the
per-operation `try`, so the `catch` returns it. -/
theorem credsMissing_caught_and_resolved (env : Env) (h : credsMissing env = true)
    (op : OpCall) (remote : Remote) (t : List Req) :
    (runOp env remote op) none t = (Except.ok configError, none, t) := by
  cases op <;> exact withClient_noCreds env _ h t

/-- Witness for `credsMissing_caught_and_resolved` at a concrete operation
and environment. -/
theorem credsMissing_caught_witness :
    (runOp badEnv remoteNull (OpCall.getUserByUsername "alice")) none [] =
      (Except.ok configError, none, []) :=
  credsMissing_caught_and_resolved badEnv rfl (OpCall.getUserByUsername "alice")
    remoteNull []

/-- Claim C2: when the underlying client call throws, every facade
operation resolves (does not reject) and its resolved result is the thrown
value itself, untranslated. -/
theorem remote_error_returned (env : Env) (remote : Remote) (e : JsVal)
    (hremote : ∀ r, remote r = Except.error e) (op : OpCall)
    (cl : TwitterApi) (t : List Req) :
    ((runOp env remote op) (some cl) t).1 = Except.ok e := by
  cases op
  case postTweet txt img =>
    simp only [runOp, postTweet, withClient_result]
    cases himg : strTruthy img <;> simp only [himg, Bool.false_eq_true, if_false, if_true] <;>
      rw [traceM_bind_error _ _ t e (hremote _)]
  all_goals
    simp only [runOp, getUserTweets, getTweet, getUserMentionTimeline, quoteAndComment,
      replyToTweet, likeTweet, followUser, unfollowUser, getUserByUsername,
      searchTweets, getTrendingTopics, createList, addListMember, removeListMember,
      getOwnedLists, withClient_result] <;>
    rw [traceM_bind_error _ _ t e (hremote _)]

/-- Witness for `remote_error_returned`: a concrete throwing remote and a
concrete operation. -/
theorem remote_error_returned_witness :
    ((runOp goodEnv (remoteThrow (JsVal.errorObj "boom")) (OpCall.getTweet "1"))
      (some apiClient) []).1 = Except.ok (JsVal.errorObj "boom") :=
  remote_error_returned goodEnv (remoteThrow (JsVal.errorObj "boom"))
    (JsVal.errorObj "boom") (fun _ => rfl) (OpCall.getTweet "1") apiClient []

/-- The client handle after any facade operation is decided by `getClient`
alone. -/
theorem runOp_client (env : Env) (remote : Remote) (op : OpCall)
    (c : Option TwitterApi) (t : List Req) :
    ((runOp env remote op) c t).2.1 =
      match getClient env c with
      | Except.ok p => p.2
      | Except.error _ => c := by
  cases op <;> exact withClient_client env _ c t

/-- A constructed client handle is never reassigned by any operation. -/
theorem runOp_client_some (env : Env) (remote : Remote) (op : OpCall)
    (c : TwitterApi) (t : List Req) :
    ((runOp env remote op) (some c) t).2.1 = some c := by
  rw [runOp_client]
  rfl

/-- A constructed client handle survives any sequence of operations. -/
theorem runOps_client_some (env : Env) (remote : Remote) (ops : List OpCall) :
    ∀ (c : TwitterApi) (t : List Req),
      (runOps env remote ops (some c, t)).1 = some c := by
  induction ops with
  | nil => intro c t; rfl
  | cons op ops ih =>
    intro c t
    show (runOps env remote ops
      (((runOp env remote op) (some c) t).2.1,
       ((runOp env remote op) (some c) t).2.2)).1 = some c
    rw [runOp_client_some]
    exact ih c _

/-- Claim C3: with all four credentials present, the first operation call
on a fresh service constructs the client built from the environment; any
operation on a constructed handle leaves it untouched; a constructed
handle survives any sequence of operations; `getClient` on a constructed
handle returns that very client; and `getInstance` stores its result and
always returns the stored service. -/
theorem client_singleton (env : Env) (hc : credsMissing env = false) :
    (∀ (remote : Remote) (op : OpCall) (t : List Req),
        ((runOp env remote op) none t).2.1 = some (mkTwitterApi env)) ∧
    (∀ (remote : Remote) (op : OpCall) (c : TwitterApi) (t : List Req),
        ((runOp env remote op) (some c) t).2.1 = some c) ∧
    (∀ (remote : Remote) (ops : List OpCall) (c : TwitterApi) (t : List Req),
        (runOps env remote ops (some c, t)).1 = some c) ∧
    (∀ c : TwitterApi, getClient env (some c) = Except.ok (c, some c)) ∧
    (∀ st, (getInstance st).2 = some (getInstance st).1) ∧
    (∀ s, getInstance (some s) = (s, some s)) := by
  refine ⟨?_, ?_, ?_, fun c => rfl, ?_, fun s => rfl⟩
  · intro remote op t
    rw [runOp_client]
    simp [getClient, hc]
  · intro remote op c t
    exact runOp_client_some env remote op c t
  · intro remote ops c t
    exact runOps_client_some env remote ops c t
  · intro st
    cases st <;> rfl

/-- Witness for `client_singleton`: the first call on a fresh service with
the concrete credentialed environment constructs exactly the client built
from it. -/
theorem client_singleton_witness :
    ((runOp goodEnv remoteNull (OpCall.getTrendingTopics none)) none []).2.1 =
      some (mkTwitterApi goodEnv) :=
  (client_singleton goodEnv rfl).1 remoteNull (OpCall.getTrendingTopics none) []

/-! ### Substring semantics of the MIME inference -/

theorem leadsWith_iff (l p : List Char) :
    leadsWith l p = true ↔ ∃ l₂, l = p ++ l₂ := by
  induction p generalizing l with
  | nil => simp [leadsWith]
  | cons ph pt ih =>
    cases l with
    | nil => simp [leadsWith]
    | cons c cs => simp [leadsWith, ih]

theorem occursIn_nil (p : List Char) : OccursIn p [] ↔ p = [] := by
  constructor
  · rintro ⟨l₁, l₂, h⟩
    rcases List.append_eq_nil.mp h.symm with ⟨h1, -⟩
    exact (List.append_eq_nil.mp h1).2
  · rintro rfl
    exact ⟨[], [], rfl⟩

theorem occursIn_cons (p : List Char) (c : Char) (cs : List Char) :
    OccursIn p (c :: cs) ↔ (∃ l₂, c :: cs = p ++ l₂) ∨ OccursIn p cs := by
  constructor
  · rintro ⟨l₁, l₂, h⟩
    cases l₁ with
    | nil => exact Or.inl ⟨l₂, by simpa using h⟩
    | cons a l₁ =>
      simp only [List.cons_append] at h
      exact Or.inr ⟨l₁, l₂, (List.cons.inj h).2⟩
  · rintro (⟨l₂, h⟩ | ⟨l₁, l₂, h⟩)
    · exact ⟨[], l₂, by simpa using h⟩
    · exact ⟨c :: l₁, l₂, by simp [h]⟩

/-- The JS `includes` test decides contiguous substring occurrence. -/
theorem charsInclude_iff (l p : List Char) :
    charsInclude l p = true ↔ OccursIn p l := by
  induction l with
  | nil =>
    rw [charsInclude, occursIn_nil]
    simp [leadsWith_iff]
  | cons c cs ih =>
    rw [charsInclude, occursIn_cons]
    simp [leadsWith_iff, ih]

theorem strStartsWith_iff (s pat : String) :
    strStartsWith s pat ↔ leadsWith s.toList pat.toList = true :=
  (leadsWith_iff s.toList pat.toList).symm

/-- Claim C4, formalized as stated: the inferred MIME type keyed on the
*prefix* of the base64 argument. -/
def mimePrefixClaim : Prop :=
  ∀ s : String,
    (strStartsWith s "data:image/png" → inferMimeType s = EUploadMimeType.Png) ∧
    (strStartsWith s "data:image/gif" → inferMimeType s = EUploadMimeType.Gif) ∧
    (strStartsWith s "data:image/webp" → inferMimeType s = EUploadMimeType.Webp) ∧
    (¬ strStartsWith s "data:image/png" ∧ ¬ strStartsWith s "data:image/gif" ∧
        ¬ strStartsWith s "data:image/webp" →
      inferMimeType s = EUploadMimeType.Jpeg)

/-- Claim C4 is false as stated: `"xdata:image/png"` is prefixed by none of
the three data-URI markers, yet the inferred type is png, not the claimed
jpeg default — the code tests with `includes` (substring), not a prefix
match. -/
theorem mimePrefixClaim_false : ¬ mimePrefixClaim := by
  intro h
  have h4 := (h "xdata:image/png").2.2.2
  rw [strStartsWith_iff, strStartsWith_iff, strStartsWith_iff] at h4
  have hj : inferMimeType "xdata:image/png" = EUploadMimeType.Jpeg :=
    h4 ⟨by decide, by decide, by decide⟩
  exact absurd hj (by decide)

/-- Claim C4 (amended): the MIME type inferred by `postTweet` is png when
`data:image/png` occurs anywhere in the string, else gif when
`data:image/gif` occurs, else webp when `data:image/webp` occurs, else
jpeg. -/
theorem inferMimeType_substring (s : String) :
    (inferMimeType s = EUploadMimeType.Png ↔
      OccursIn "data:image/png".toList s.toList) ∧
    (inferMimeType s = EUploadMimeType.Gif ↔
      ¬ OccursIn "data:image/png".toList s.toList ∧
        OccursIn "data:image/gif".toList s.toList) ∧
    (inferMimeType s = EUploadMimeType.Webp ↔
      ¬ OccursIn "data:image/png".toList s.toList ∧
        ¬ OccursIn "data:image/gif".toList s.toList ∧
        OccursIn "data:image/webp".toList s.toList) ∧
    (inferMimeType s = EUploadMimeType.Jpeg ↔
      ¬ OccursIn "data:image/png".toList s.toList ∧
        ¬ OccursIn "data:image/gif".toList s.toList ∧
        ¬ OccursIn "data:image/webp".toList s.toList) := by
  unfold inferMimeType strIncludes
  cases hb1 : charsInclude s.toList "data:image/png".toList <;>
    cases hb2 : charsInclude s.toList "data:image/gif".toList <;>
      cases hb3 : charsInclude s.toList "data:image/webp".toList <;>
        simp only [← charsInclude_iff] <;>
          simp only [hb1, hb2, hb3] <;>
            simp

/-- A body of the form `call ...; rest` (where `rest` never issues a call)
appends exactly its one request to the trace. -/
theorem body_trace_call {remote : Remote} (r : Req) (f : JsVal → TraceM JsVal)
    (hf : ∀ a t', ((f a) t').2 = t') (t : List Req) :
    ((call remote r >>= f) t).2 = t ++ [r] := by
  rw [traceM_bind_snd _ _ hf t]
  rfl

/-- Claim C5: `getTrendingTopics` behaves identically for every value of
its `woeid` parameter (outcome, handle state and trace are all equal), and
with a constructed client its one issued request is always the global
`trendsAvailable` resource. -/
theorem trendingTopics_ignores_woeid (env : Env) (remote : Remote)
    (w w' : Option Int) (c : Option TwitterApi) (t : List Req) :
    getTrendingTopics env remote w c t = getTrendingTopics env remote w' c t ∧
    ∀ cl : TwitterApi,
      ((getTrendingTopics env remote w) (some cl) t).2.2 =
        t ++ [Req.trendsAvailable] := by
  refine ⟨rfl, fun cl => ?_⟩
  simp only [getTrendingTopics, withClient_trace]
  exact body_trace_call _ _ (fun a t' => rfl) t

/-- Claim C6 is false as stated: one `likeTweet` invocation issues two
client calls, `me()` and then `like(...)`. -/
theorem likeTweet_two_calls :
    ((likeTweet goodEnv remoteRich "7") (some apiClient) []).2.2 =
      [Req.me, Req.like (JsVal.str "self") "7"] ∧
    ((likeTweet goodEnv remoteRich "7") (some apiClient) []).2.2.length = 2 :=
  ⟨rfl, rfl⟩

/-- How many client calls each operation performs on its happy path:
one, except the `me()`-prefixed operations and the media path of
`postTweet`, which perform two. -/
def clientCallCount : OpCall → Nat
  | OpCall.likeTweet _ => 2
  | OpCall.followUser _ => 2
  | OpCall.unfollowUser _ => 2
  | OpCall.getOwnedLists => 2
  | OpCall.postTweet _ img => if strTruthy img then 2 else 1
  | _ => 1

/-- Claim C6 (amended): with a constructed client and a remote on which
every call succeeds with a response carrying the accessed fields, an
operation issues exactly `clientCallCount` requests: one for most
operations, but two for like/follow/unfollow/list-owned (a `me()` lookup
precedes the action) and two for media posting (upload, then tweet). -/
theorem op_call_count (env : Env) (remote : Remote)
    (hremote : ∀ r, remote r = Except.ok richResp) (op : OpCall)
    (cl : TwitterApi) (t : List Req) :
    ((runOp env remote op) (some cl) t).2.2.length = t.length + clientCallCount op := by
  cases op
  case postTweet txt img =>
    cases himg : strTruthy img <;>
      simp [runOp, postTweet, withClient_trace, himg, clientCallCount,
        traceM_bind, call, getFieldM, traceM_pure, hremote, richResp, getField,
        lookupField]
  all_goals
    simp [runOp, getUserTweets, getTweet, getUserMentionTimeline, quoteAndComment,
      replyToTweet, likeTweet, followUser, unfollowUser, getUserByUsername,
      searchTweets, getTrendingTopics, createList, addListMember, removeListMember,
      getOwnedLists, withClient_trace, clientCallCount,
      traceM_bind, call, getFieldM, traceM_pure, hremote, richResp, getField,
      lookupField]

/-- Witness for `op_call_count`: `followUser` issues two requests. -/
theorem op_call_count_witness :
    ((runOp goodEnv remoteRich (OpCall.followUser "u2")) (some apiClient) []).2.2.length = 2 :=
  op_call_count goodEnv remoteRich (fun _ => rfl) (OpCall.followUser "u2") apiClient []

/-- A concrete timeline response: one tweet under `data`. -/
def timelineResp : JsVal :=
  JsVal.obj [("data", JsVal.arr
    [JsVal.obj [("id", JsVal.str "1"), ("text", JsVal.str "hi")]])]

/-- A remote on which every call succeeds with `timelineResp`. -/
def remoteTimeline : Remote := fun _ => Except.ok timelineResp

/-- Claim C7 is false as stated: on a successful remote call,
`getUserTweets` does not return the sequence of posts unchanged; it
resolves with a JSON *string* that wraps the posts in a
`{result, message}` envelope. -/
theorem getUserTweets_reserializes :
    ((getUserTweets goodEnv remoteTimeline "u1" none none none)
        (some apiClient) []).1 =
      Except.ok (JsVal.str
        "\x7b\"result\":[\x7b\"id\":\"1\",\"text\":\"hi\"\x7d],\"message\":\"Tweets fetched successfully\"\x7d") ∧
    ((getUserTweets goodEnv remoteTimeline "u1" none none none)
        (some apiClient) []).1 ≠
      Except.ok (JsVal.arr
        [JsVal.obj [("id", JsVal.str "1"), ("text", JsVal.str "hi")]]) := by
  refine ⟨rfl, fun h => ?_⟩
  rw [show ((getUserTweets goodEnv remoteTimeline "u1" none none none)
        (some apiClient) []).1 =
      Except.ok (JsVal.str
        "\x7b\"result\":[\x7b\"id\":\"1\",\"text\":\"hi\"\x7d],\"message\":\"Tweets fetched successfully\"\x7d")
    from rfl] at h
  injection h with h1
  exact JsVal.noConfusion h1

/-- Claim C7 (amended): on a successful remote call whose response carries
a `data` field, `getUserTweets` resolves with the JSON serialization (a
string) of the envelope `{result: <data>, message: "Tweets fetched
successfully"}`, not with the raw payload. -/
theorem getUserTweets_wraps (env : Env) (remote : Remote) (uid : String)
    (pt : Option String) (ex : Option (List Excl)) (mr : Option Int)
    (cl : TwitterApi) (t : List Req) (resp d : JsVal)
    (h1 : remote (Req.userTimeline uid
        (Option.getD ex [Excl.retweets, Excl.replies]) 50 pt) = Except.ok resp)
    (h2 : getField resp "data" = Except.ok d) :
    ∃ s : String,
      jsonStringify (JsVal.obj [("result", d),
        ("message", JsVal.str "Tweets fetched successfully")]) = some s ∧
      ((getUserTweets env remote uid pt ex mr) (some cl) t).1 =
        Except.ok (JsVal.str s) := by
  refine ⟨_, rfl, ?_⟩
  simp only [getUserTweets, withClient_result, traceM_bind, call, getFieldM,
    traceM_pure, h1, h2]
  rfl

/-- Witness for `getUserTweets_wraps` at a concrete remote and response. -/
theorem getUserTweets_wraps_witness :
    ∃ s : String,
      jsonStringify (JsVal.obj [("result",
          JsVal.arr [JsVal.obj [("id", JsVal.str "1"), ("text", JsVal.str "hi")]]),
        ("message", JsVal.str "Tweets fetched successfully")]) = some s ∧
      ((getUserTweets goodEnv remoteTimeline "u1" none none none)
          (some apiClient) []).1 = Except.ok (JsVal.str s) :=
  getUserTweets_wraps goodEnv remoteTimeline "u1" none none none apiClient []
    timelineResp
    (JsVal.arr [JsVal.obj [("id", JsVal.str "1"), ("text", JsVal.str "hi")]])
    rfl rfl

/-- Claim C8: `searchTweets` requests exactly 10 results when no count is
supplied, and forwards the supplied count otherwise. -/
theorem searchTweets_max_results (env : Env) (remote : Remote) (q : String)
    (cl : TwitterApi) (t : List Req) :
    ((searchTweets env remote q none) (some cl) t).2.2 =
      t ++ [Req.search q 10] ∧
    ∀ n : Int, ((searchTweets env remote q (some n)) (some cl) t).2.2 =
      t ++ [Req.search q n] := by
  refine ⟨?_, fun n => ?_⟩ <;>
    · simp only [searchTweets, withClient_trace, Option.getD_none, Option.getD_some]
      exact body_trace_call _ _
        (fun a t' => traceM_bind_snd _ _ (fun b t'' => rfl) t') t

/-- Claim C9: `getUserTweets` declares a `maxResults` parameter but never
reads it — its behaviour is identical for every value, and the issued
timeline request always carries `max_results: 50`. -/
theorem getUserTweets_ignores_maxResults (env : Env) (remote : Remote)
    (uid : String) (pt : Option String) (ex : Option (List Excl))
    (mr mr' : Option Int) (cl : TwitterApi) (t : List Req) :
    getUserTweets env remote uid pt ex mr =
      getUserTweets env remote uid pt ex mr' ∧
    ((getUserTweets env remote uid pt ex mr) (some cl) t).2.2 =
      t ++ [Req.userTimeline uid (Option.getD ex [Excl.retweets, Excl.replies])
        50 pt] := by
  refine ⟨rfl, ?_⟩
  simp only [getUserTweets, withClient_trace]
  exact body_trace_call _ _
    (fun a t' => traceM_bind_snd _ _ (fun b t'' => rfl) t') t

/-- Claim C10: `getUserMentionTimeline` requests `maxResults` results when
that value is non-zero, and 10 when it is absent or `0` — the default is
applied by the falsiness test `maxResults || 10`, not an undefined-check. -/
theorem mention_timeline_default (env : Env) (remote : Remote) (uid : String)
    (pt : Option String) (cl : TwitterApi) (t : List Req) (mr : Option Int) :
    (mr = none →
      ((getUserMentionTimeline env remote uid pt mr) (some cl) t).2.2 =
        t ++ [Req.userMentionTimeline uid 10 pt]) ∧
    (mr = some 0 →
      ((getUserMentionTimeline env remote uid pt mr) (some cl) t).2.2 =
        t ++ [Req.userMentionTimeline uid 10 pt]) ∧
    (∀ n : Int, n ≠ 0 → mr = some n →
      ((getUserMentionTimeline env remote uid pt mr) (some cl) t).2.2 =
        t ++ [Req.userMentionTimeline uid n pt]) := by
  refine ⟨?_, ?_, ?_⟩
  · rintro rfl
    simp only [getUserMentionTimeline, withClient_trace, orIfFalsy]
    exact body_trace_call _ _ (fun a t' => rfl) t
  · rintro rfl
    simp only [getUserMentionTimeline, withClient_trace, orIfFalsy, if_pos rfl]
    exact body_trace_call _ _ (fun a t' => rfl) t
  · rintro n hn rfl
    simp only [getUserMentionTimeline, withClient_trace, orIfFalsy, if_neg hn]
    exact body_trace_call _ _ (fun a t' => rfl) t

/-- Witness for `mention_timeline_default`: passing `0` still requests 10
results. -/
theorem mention_timeline_default_witness :
    ((getUserMentionTimeline goodEnv remoteRich "u" none (some 0))
        (some apiClient) []).2.2 = [Req.userMentionTimeline "u" 10 none] :=
  (mention_timeline_default goodEnv remoteRich "u" none apiClient [] (some 0)).2.1 rfl
